import Mathlib

/-!
Verification of the ECS (Entity-Component-System) core of the arcade
repository: `src/lib/ECS/{Component,Entity,World,System}.ts`.

The embedding renders the JavaScript runtime objects as pure data:

* A JS object / `Map` is an association list `List (String × _)` kept in
  insertion order; `mapGet`, `mapSet`, `mapDelete` mirror property lookup,
  `Map.set` (replace-in-place or append) and `Map.delete`.
* A JS value stored in a component field or a scene payload is a `JsVal`.
  An entity back-reference (`component.entity = this`) is rendered as
  `JsVal.entityRef name`, since an entity's identity is its `name`
  (spec section 3: "entity identity is its name").
* Mutation (`component.entity = this`, `this._components.set(...)`) is
  rendered as a functional update returning the new object state, and
  `return this` as returning that updated state.
-/

namespace Arcade

/-- JS runtime values as stored in component fields and scene payloads.
`entityRef n` stands for a reference to the entity named `n`. -/
inductive JsVal where
  | null : JsVal
  | bool (b : Bool) : JsVal
  | num (n : Int) : JsVal
  | str (s : String) : JsVal
  | obj (fields : List (String × JsVal)) : JsVal
  | entityRef (name : String) : JsVal

/-- Property lookup on a JS object / `Map.get`: first entry with the key. -/
def mapGet {α : Type} (m : List (String × α)) (k : String) : Option α :=
  (m.find? (fun p => p.1 == k)).map (fun p => p.2)

/-- Property assignment on a JS object / `Map.set`: if the key is present the
value is replaced in place (iteration order preserved), otherwise the new
entry is appended. -/
def mapSet {α : Type} (m : List (String × α)) (k : String) (v : α) : List (String × α) :=
  if m.any (fun p => p.1 == k) then
    m.map (fun p => if p.1 == k then (k, v) else p)
  else m ++ [(k, v)]

/-- `Map.delete` / the `delete` operator: drops the entry with the key,
a no-op when the key is absent. -/
def mapDelete {α : Type} (m : List (String × α)) (k : String) : List (String × α) :=
  m.filter (fun p => p.1 != k)

/-- JS truthiness of a value, as used by `if (!sceneData)` etc.
`null`/`false`/`0`/`""` are falsy; objects and entity references are truthy. -/
def truthy : JsVal → Bool
  | .null => false
  | .bool b => b
  | .num n => n != 0
  | .str s => s != ""
  | .obj _ => true
  | .entityRef _ => true

/-- Property access `v.k` on an arbitrary JS value: a field of an object,
`undefined` (rendered `none`) otherwise. -/
def jsGet (v : JsVal) (k : String) : Option JsVal :=
  match v with
  | .obj fields => mapGet fields k
  | _ => none

/-- Truthiness of a possibly-`undefined` value (`undefined` is falsy). -/
def truthyOpt (v : Option JsVal) : Bool :=
  match v with
  | none => false
  | some x => truthy x

/-- A component instance: `kind` is `this.constructor.name` (the concrete
subclass's runtime kind identifier) and `props` are the object's own
enumerable properties in insertion order (the declared fields `loading`,
`loaded`, `enabled`, `entity` of the `Component` base plus any
subtype-specific fields). From `src/lib/ECS/Component.ts`. -/
structure Component where
  kind : String
  props : List (String × JsVal)

/-- Own-property state installed by the `Component` base class field
initializers: `loading = false`, `loaded = false`, `enabled = true`,
`entity = null`, in declaration order. -/
def componentDefaults : List (String × JsVal) :=
  [("loading", .bool false), ("loaded", .bool false),
   ("enabled", .bool true), ("entity", .null)]

/-- The `Component` constructor of `src/lib/ECS/Component.ts`: field
initializers run first, then `Object.assign(this, data)` copies every key of
the input record onto the object, then
`this.enabled = typeof data.enabled == "undefined" ? true : data.enabled`. -/
def Component.init (kind : String) (data : List (String × JsVal)) : Component :=
  let assigned := data.foldl (fun props kv => mapSet props kv.1 kv.2) componentDefaults
  let enabledVal := (mapGet data "enabled").getD (.bool true)
  { kind := kind, props := mapSet assigned "enabled" enabledVal }

/-- The `Component` constructor of the variant base class (unnamed source
file `part_000`-series, `Component` with `toJSON`): field initializers run,
then only `this.enabled` is assigned from the record; no `Object.assign`. -/
def Component.initAlt (kind : String) (data : List (String × JsVal)) : Component :=
  let enabledVal := (mapGet data "enabled").getD (.bool true)
  { kind := kind,
    props := [("loading", .bool false), ("loaded", .bool false),
              ("enabled", enabledVal), ("entity", .null)] }

/-- `Component.serialize` of `src/lib/ECS/Component.ts`: a `for..in` loop
guarded by `hasOwnProperty` copies every own property (the back-reference
`entity` included) into a fresh record, which is returned. -/
def Component.serialize (c : Component) : JsVal :=
  .obj c.props

/-- `Component.toJSON` of the variant base class: `Object.keys(this)` is
reduced to a shallow copy of every own property (the back-reference
`entity` included), wrapped in an object keyed by `this.constructor.name`.
The source then runs the result through `JSON.stringify`; the structured
value fed to the stringifier is what we model. -/
def Component.toJSON (c : Component) : JsVal :=
  .obj [(c.kind, .obj c.props)]

/-- An entity: its `name` and the private `_components` map from kind
identifier to component instance. The `Mesh` superclass state is rendering
engine territory and carries no component logic. From
`src/lib/ECS/Entity.ts`. -/
structure Entity where
  name : String
  components : List (String × Component)

/-- The `Entity` constructor: `new Entity(name)` starts with an empty
component map. -/
def Entity.make (name : String) : Entity :=
  { name := name, components := [] }

/-- `Entity.addComponent`: sets `component.entity = this` (the back-reference,
rendered as `entityRef name`), stores the mutated component under
`component.constructor.name`, and returns `this` (rendered as the updated
entity state). -/
def Entity.addComponent (e : Entity) (c : Component) : Entity :=
  let stored : Component := { c with props := mapSet c.props "entity" (.entityRef e.name) }
  { e with components := mapSet e.components stored.kind stored }

/-- `Entity.removeComponent`: deletes the entry under
`componentClass.constructor.name` — the argument is a component instance, so
this is the argument's runtime kind — and returns `this`. -/
def Entity.removeComponent (e : Entity) (c : Component) : Entity :=
  { e with components := mapDelete e.components c.kind }

/-- `Entity.getComponent`: looks up `componentClass.name` (the kind
identifier); a stored component object is always truthy, so `if (!t) throw`
fires exactly when the kind is absent, throwing the string
`` `${componentClass.name} Not Found for ${this.name}` ``. The surrounding
`try { ... } catch (e) { throw e }` rethrows unchanged, so the error always
propagates to the caller. -/
def Entity.getComponent (e : Entity) (kindName : String) : Except String Component :=
  match mapGet e.components kindName with
  | some t => Except.ok t
  | none => Except.error (kindName ++ " Not Found for " ++ e.name)

/-- `Entity.hasComponent`: `this._components.has(componentClass.name)`. -/
def Entity.hasComponent (e : Entity) (kindName : String) : Bool :=
  (mapGet e.components kindName).isSome

/-- The kind identifiers currently stored on an entity, in map iteration
order. -/
def Entity.kindKeys (e : Entity) : List String :=
  e.components.map (fun p => p.1)

/-- The `World` state relevant to the entity registry and scene loading:
`entities` is the `Map<String, Entity>` registry in insertion order,
`originalSceneData` the stored raw payload, `isPaused` the pause flag.
Rendering fields (`canvas`, `engine`, `currentScene`), the dynamic-import
cache and the derived `sceneCode` bundle are external collaborators.
From `src/lib/ECS/World.ts`. -/
structure World where
  entities : List (String × Entity)
  originalSceneData : Option JsVal
  isPaused : Bool

/-- `Array.from(this.entities.values())`: the registered entities in current
registry iteration (insertion) order. -/
def World.entityValues (w : World) : List Entity :=
  w.entities.map (fun p => p.2)

/-- The `componentClasses` argument of `World.entitiesWith`: a single
component class or an array of classes, identified (as everywhere in this
code base) by class name. `Array.isArray` distinguishes the two. -/
inductive KindQuery where
  | single (kind : String) : KindQuery
  | many (kinds : List String) : KindQuery

/-- `World.entitiesWith`: filters the registry values by
`componentClasses.every((comp) => entity.hasComponent(comp))` for an array
argument, `entity.hasComponent(componentClasses)` otherwise. (The local map
`m` built afterwards in the source is dead code: it is never read and the
filtered array `e` is returned.) -/
def World.entitiesWith (w : World) (q : KindQuery) : List Entity :=
  w.entityValues.filter (fun e =>
    match q with
    | .many ks => ks.all (fun k => e.hasComponent k)
    | .single k => e.hasComponent k)

/-- `World.createEntity`: registers a fresh entity under its name and
returns it. -/
def World.createEntity (w : World) (name : String) : World × Entity :=
  let e := Entity.make name
  ({ w with entities := mapSet w.entities e.name e }, e)

/-- `World.removeEntity`: drops the registry entry under the entity's name. -/
def World.removeEntity (w : World) (e : Entity) : World :=
  { w with entities := mapDelete w.entities e.name }

/-- The spec's taxonomy for the two scene-payload failures of
`World.loadSceneData` (the source throws the carried message strings). -/
inductive SceneLoadError where
  | formatError (msg : String) : SceneLoadError
  | schemaError (msg : String) : SceneLoadError

/-- `World.loadSceneData`, from the point where the fetched response body has
been parsed (the `fetch` itself is external IO; `sceneData` is its parsed
JSON result). If the payload is falsy it throws
`"Data is not in JSON Format"`; else if `sceneData.entities` is falsy
(in particular when the `entities` field is absent) it throws
`"No entities property in sceneData"`; only then does it store the payload
in `originalSceneData` and derive the scene bundle via `loadSceneCode`
(a collaborator doing dynamic imports, passed here as a function). A throw
is rendered as `(some error, w)` carrying the world state at the throw. -/
def World.loadSceneData (w : World) (sceneData : JsVal)
    (sceneCode : World → JsVal → World) : Option SceneLoadError × World :=
  if truthy sceneData = false then
    (some (.formatError "Data is not in JSON Format"), w)
  else if truthyOpt (jsGet sceneData "entities") = false then
    (some (.schemaError "No entities property in sceneData"), w)
  else
    (none, sceneCode { w with originalSceneData := some sceneData } sceneData)

/-- A `System` (abstract base, `src/lib/ECS/System.ts`): the required
component kinds (class names) passed at construction, the `isPauseable`
flag, and whether the concrete subclass defines the abstract
`processEntity` hook (`update` guards each call with
`if (this.processEntity)`; the base class declares the hook abstract, so a
type-correct subclass always has it). -/
structure System where
  componentClasses : List String
  isPauseable : Bool
  hasProcessEntity : Bool

/-- `System.update`: returns early when `this.isPauseable && this.world.isPaused`;
otherwise queries `world.entitiesWith(this.componentClasses)` (an array, so
the every/AND branch) and calls `this.processEntity(entity, deltaTime)` on
each entity in query order when the hook is defined. The result is the list
of entities `processEntity` is invoked on, in invocation order. -/
def System.update (s : System) (w : World) : List Entity :=
  if s.isPauseable && w.isPaused then []
  else (w.entitiesWith (.many s.componentClasses)).filter (fun _ => s.hasProcessEntity)

/-! Helper lemmas about the association-list rendering of JS objects and
`Map`s. -/

theorem mapGet_cons {α : Type} (p : String × α) (rest : List (String × α)) (k : String) :
    mapGet (p :: rest) k = if p.1 == k then some p.2 else mapGet rest k := by
  cases hp : (p.1 == k) <;> simp [mapGet, List.find?_cons, hp]

theorem mapGet_isSome_iff_any {α : Type} (m : List (String × α)) (k : String) :
    (mapGet m k).isSome = m.any (fun p => p.1 == k) := by
  induction m with
  | nil => rfl
  | cons p rest ih =>
    rw [mapGet_cons]
    cases hp : (p.1 == k) <;> simp [hp, ih]

theorem mapGet_mapSet_self {α : Type} (m : List (String × α)) (k : String) (v : α) :
    mapGet (mapSet m k v) k = some v := by
  unfold mapSet
  by_cases hany : m.any (fun p => p.1 == k) = true
  · simp only [hany, if_true]
    induction m with
    | nil => simp at hany
    | cons p rest ih =>
      cases hp : (p.1 == k) with
      | true =>
        have hpe : p.1 = k := by simpa using hp
        simp [mapGet_cons, hpe]
      | false =>
        simp only [List.any_cons, hp, Bool.false_or] at hany
        have hpe : ¬ p.1 = k := by simpa using hp
        simp only [List.map_cons, hpe, if_false, mapGet_cons, hp, Bool.false_eq_true]
        exact ih hany
  · simp only [hany, if_false]
    induction m with
    | nil => simp [mapGet_cons]
    | cons p rest ih =>
      simp only [List.any_cons, Bool.or_eq_true, not_or] at hany
      have hp : (p.1 == k) = false := by
        cases hq : (p.1 == k)
        · rfl
        · exact absurd hq hany.1
      simp only [List.cons_append, mapGet_cons, hp, Bool.false_eq_true, if_false]
      exact ih (by simp [hany.2])

theorem mapGet_map_replace_ne {α : Type} (m : List (String × α)) (k k2 : String) (v : α)
    (hne : k2 ≠ k) :
    mapGet (m.map (fun p => if p.1 == k then (k, v) else p)) k2 = mapGet m k2 := by
  have hkk2 : ((k : String) == k2) = false := beq_eq_false_iff_ne.mpr (Ne.symm hne)
  induction m with
  | nil => rfl
  | cons p rest ih =>
    simp only [List.map_cons, mapGet_cons]
    by_cases hp : p.1 = k
    · have hp2 : ¬ p.1 = k2 := by rw [hp]; exact Ne.symm hne
      simp only [hp, if_pos (beq_self_eq_true k)]
      simp [Ne.symm hne, hp2, ih]
      simpa using ih
    · by_cases hq : p.1 = k2
      · simp [hq, hne]
      · simp [hp, hq]
        simpa using ih

theorem mapGet_append_single_ne {α : Type} (m : List (String × α)) (k k2 : String) (v : α)
    (hne : k2 ≠ k) :
    mapGet (m ++ [(k, v)]) k2 = mapGet m k2 := by
  have hkk2 : ((k : String) == k2) = false := beq_eq_false_iff_ne.mpr (Ne.symm hne)
  induction m with
  | nil => simp [mapGet_cons, hkk2, mapGet]
  | cons p rest ih =>
    simp only [List.cons_append, mapGet_cons]
    cases hq : (p.1 == k2)
    · simp only [Bool.false_eq_true, if_false]
      exact ih
    · simp

theorem mapGet_mapSet_ne {α : Type} (m : List (String × α)) (k k2 : String) (v : α)
    (hne : k2 ≠ k) :
    mapGet (mapSet m k v) k2 = mapGet m k2 := by
  unfold mapSet
  by_cases hany : m.any (fun p => p.1 == k) = true
  · simp only [hany, if_true]
    exact mapGet_map_replace_ne m k k2 v hne
  · simp only [hany, if_false]
    exact mapGet_append_single_ne m k k2 v hne

theorem mapSet_length_of_present {α : Type} (m : List (String × α)) (k : String) (v : α)
    (h : m.any (fun p => p.1 == k) = true) :
    (mapSet m k v).length = m.length := by
  simp [mapSet, h]

theorem mapDelete_of_absent {α : Type} (m : List (String × α)) (k : String)
    (h : mapGet m k = none) :
    mapDelete m k = m := by
  unfold mapDelete
  rw [List.filter_eq_self]
  intro p hp
  induction m with
  | nil => simp at hp
  | cons q rest ih =>
    rw [mapGet_cons] at h
    cases hq : (q.1 == k) with
    | true => simp [hq] at h
    | false =>
      rcases List.mem_cons.mp hp with hh | hh
      · subst hh
        simpa using hq
      · exact ih (by simpa [hq] using h) hh

theorem mapGet_mapDelete_self {α : Type} (m : List (String × α)) (k : String) :
    mapGet (mapDelete m k) k = none := by
  unfold mapGet mapDelete
  rw [Option.map_eq_none', List.find?_eq_none]
  intro p hp
  have := (List.mem_filter.mp hp).2
  simp only [bne_iff_ne, ne_eq] at this
  simp [this]

theorem mapGet_mapDelete_ne {α : Type} (m : List (String × α)) (k k2 : String)
    (hne : k2 ≠ k) :
    mapGet (mapDelete m k) k2 = mapGet m k2 := by
  induction m with
  | nil => rfl
  | cons p rest ih =>
    unfold mapDelete at *
    rw [List.filter_cons]
    cases hq : (p.1 == k2) with
    | true =>
      have hpk : (p.1 != k) = true := by
        have : p.1 = k2 := by simpa using hq
        simp [this, hne]
      simp only [hpk, if_true, mapGet_cons, hq, if_true]
    | false =>
      cases hpk : (p.1 != k) with
      | true => simp only [if_true, mapGet_cons, hq, Bool.false_eq_true, if_false, ih]
      | false => simp only [Bool.false_eq_true, if_false, ih, mapGet_cons, hq]

theorem keys_mapSet_of_present {α : Type} (m : List (String × α)) (k : String) (v : α)
    (h : m.any (fun p => p.1 == k) = true) :
    (mapSet m k v).map (fun p => p.1) = m.map (fun p => p.1) := by
  simp only [mapSet, h, if_true, List.map_map]
  apply List.map_congr_left
  intro p _
  cases hp : (p.1 == k) with
  | true =>
    have hpe : p.1 = k := by simpa using hp
    simp [hpe]
  | false =>
    have hpe : ¬ p.1 = k := by simpa using hp
    simp [hpe]

theorem keys_mapSet_of_absent {α : Type} (m : List (String × α)) (k : String) (v : α)
    (h : m.any (fun p => p.1 == k) = false) :
    (mapSet m k v).map (fun p => p.1) = m.map (fun p => p.1) ++ [k] := by
  simp [mapSet, h]

theorem mapGet_foldl_mapSet_of_absent {α : Type} (data : List (String × α)) (k : String)
    (h : ∀ kv ∈ data, kv.1 ≠ k) (start : List (String × α)) :
    mapGet (data.foldl (fun m kv => mapSet m kv.1 kv.2) start) k = mapGet start k := by
  induction data generalizing start with
  | nil => rfl
  | cons kv rest ih =>
    simp only [List.foldl_cons]
    rw [ih (fun x hx => h x (List.mem_cons_of_mem kv hx))]
    exact mapGet_mapSet_ne start kv.1 k kv.2 (fun hk => h kv (List.mem_cons_self kv rest) hk.symm)

theorem mapGet_eq_none_forall {α : Type} (m : List (String × α)) (k : String)
    (h : mapGet m k = none) : ∀ kv ∈ m, kv.1 ≠ k := by
  intro kv hkv
  induction m with
  | nil => simp at hkv
  | cons q rest ih =>
    rw [mapGet_cons] at h
    cases hq : (q.1 == k) with
    | true => simp [hq] at h
    | false =>
      rcases List.mem_cons.mp hkv with hh | hh
      · subst hh
        simpa using hq
      · exact ih (by simpa [hq] using h) hh

/-! Claim C1: `World.entitiesWith`. -/

/-- C1: for every `World` and every component kind or sequence of kinds,
`World.entitiesWith` returns, in current registry iteration order (its
result is a sublist of the registry's value sequence), exactly those
registered entities for which `hasComponent` holds for the given kind, or
for all given kinds when a sequence is supplied (logical AND over the
kinds, not OR). -/
theorem entitiesWith_filters_registry_by_kinds (w : World) :
    (∀ q : KindQuery, (w.entitiesWith q).Sublist w.entityValues) ∧
    (∀ k : String, ∀ e : Entity,
      e ∈ w.entitiesWith (.single k) ↔
        e ∈ w.entityValues ∧ e.hasComponent k = true) ∧
    (∀ ks : List String, ∀ e : Entity,
      e ∈ w.entitiesWith (.many ks) ↔
        e ∈ w.entityValues ∧ ∀ k ∈ ks, e.hasComponent k = true) := by
  refine ⟨fun q => List.filter_sublist _, fun k e => ?_, fun ks e => ?_⟩
  · simp [World.entitiesWith, List.mem_filter]
  · simp [World.entitiesWith, List.mem_filter, List.all_eq_true]

/-- A 3-entity fixture with overlapping kinds: `A` has `Test`, `B` has
`Other`, `C` has both. -/
def c1wA : Entity := (Entity.make "A").addComponent (Component.init "Test" [])

def c1wB : Entity := (Entity.make "B").addComponent (Component.init "Other" [])

def c1wC : Entity :=
  ((Entity.make "C").addComponent (Component.init "Test" [])).addComponent
    (Component.init "Other" [])

def c1World : World :=
  { entities := [("A", c1wA), ("B", c1wB), ("C", c1wC)],
    originalSceneData := none, isPaused := false }

/-- C1 witness: on the 3-entity fixture, membership in
`entitiesWith [Test, Other]` requires both kinds (only `C` qualifies), and
the entity holding only one of the kinds is rejected. -/
theorem entitiesWith_filters_registry_by_kinds_witness :
    (c1wC ∈ c1World.entitiesWith (.many ["Test", "Other"]) ↔
      c1wC ∈ c1World.entityValues ∧ ∀ k ∈ ["Test", "Other"], c1wC.hasComponent k = true) ∧
    (c1wA ∈ c1World.entitiesWith (.single "Test") ↔
      c1wA ∈ c1World.entityValues ∧ c1wA.hasComponent "Test" = true) ∧
    (c1World.entitiesWith (.many ["Test", "Other"])).Sublist c1World.entityValues :=
  ⟨(entitiesWith_filters_registry_by_kinds c1World).2.2 ["Test", "Other"] c1wC,
   (entitiesWith_filters_registry_by_kinds c1World).2.1 "Test" c1wA,
   (entitiesWith_filters_registry_by_kinds c1World).1 (.many ["Test", "Other"])⟩

/-! Claim C2: `System.update` and the pause flag. -/

/-- C2: a `System` with `isPauseable = true` invoked via `update` while the
`World` is paused invokes `processEntity` on no entity; a `System` with
`isPauseable = false` (whose concrete subclass defines the abstract
`processEntity` hook, as the base class requires) invokes it on exactly the
entities matching all its required component kinds, regardless of the
pause state. -/
theorem system_update_respects_pause (s : System) (w : World) :
    (s.isPauseable = true → w.isPaused = true → s.update w = []) ∧
    (s.isPauseable = false → s.hasProcessEntity = true →
      s.update w = w.entitiesWith (.many s.componentClasses) ∧
      ∀ e : Entity, e ∈ s.update w ↔
        e ∈ w.entityValues ∧ ∀ k ∈ s.componentClasses, e.hasComponent k = true) := by
  constructor
  · intro hp hw
    simp [System.update, hp, hw]
  · intro hp hproc
    have h1 : s.update w = w.entitiesWith (.many s.componentClasses) := by
      simp [System.update, hp, hproc]
    refine ⟨h1, fun e => ?_⟩
    rw [h1]
    simp [World.entitiesWith, List.mem_filter, List.all_eq_true]

def c2Entity : Entity := (Entity.make "E1").addComponent (Component.init "Test" [])

/-- A paused world holding one entity that matches the systems below. -/
def c2World : World :=
  { entities := [("E1", c2Entity)], originalSceneData := none, isPaused := true }

def c2SysPauseable : System :=
  { componentClasses := ["Test"], isPauseable := true, hasProcessEntity := true }

def c2SysFree : System :=
  { componentClasses := ["Test"], isPauseable := false, hasProcessEntity := true }

/-- C2 witness: on a paused world with one matching entity, the pauseable
system processes nothing while the non-pauseable one processes exactly the
matching entities. -/
theorem system_update_respects_pause_witness :
    c2SysPauseable.isPauseable = true ∧ c2World.isPaused = true ∧
    c2SysPauseable.update c2World = [] ∧
    c2SysFree.isPauseable = false ∧
    c2SysFree.update c2World = c2World.entitiesWith (.many ["Test"]) :=
  ⟨rfl, rfl, (system_update_respects_pause c2SysPauseable c2World).1 rfl rfl, rfl,
   ((system_update_respects_pause c2SysFree c2World).2 rfl rfl).1⟩

/-! Claim C3: `Entity.getComponent`. -/

/-- C3: `getComponent` returns the stored component of the requested kind
when one is present, and fails with a thrown error whose message names the
requested kind and the entity's name exactly when the kind is absent; the
throw is rethrown unchanged by the surrounding catch, i.e. the error value
always reaches the caller. -/
theorem getComponent_returns_stored_or_throws (e : Entity) (k : String) :
    (∀ c : Component, mapGet e.components k = some c → e.getComponent k = .ok c) ∧
    (e.hasComponent k = false →
      e.getComponent k = .error (k ++ " Not Found for " ++ e.name)) := by
  constructor
  · intro c hc
    simp [Entity.getComponent, hc]
  · intro h
    unfold Entity.hasComponent at h
    have hnone : mapGet e.components k = none :=
      Option.not_isSome_iff_eq_none.mp (by simp [h])
    simp [Entity.getComponent, hnone]

def c3Entity : Entity := (Entity.make "Player").addComponent (Component.init "Test" [])

/-- The component instance stored on `c3Entity` under kind `Test`: the
constructed component with its back-reference set to the entity. -/
def c3Stored : Component :=
  { kind := "Test",
    props := [("loading", .bool false), ("loaded", .bool false),
              ("enabled", .bool true), ("entity", .entityRef "Player")] }

/-- C3 witness: on a concrete entity, the present kind is returned and the
absent kind `Missing` produces the error message naming the kind and the
entity name. -/
theorem getComponent_returns_stored_or_throws_witness :
    mapGet c3Entity.components "Test" = some c3Stored ∧
    c3Entity.getComponent "Test" = .ok c3Stored ∧
    c3Entity.hasComponent "Missing" = false ∧
    c3Entity.getComponent "Missing" = .error "Missing Not Found for Player" :=
  ⟨rfl, (getComponent_returns_stored_or_throws c3Entity "Test").1 c3Stored rfl, rfl,
   (getComponent_returns_stored_or_throws c3Entity "Missing").2 rfl⟩

/-! Claim C4: `World.loadSceneData` failure paths. -/

/-- C4: for every world, payload and scene-code continuation, a falsy
payload fails with the FormatError (`"Data is not in JSON Format"`) and a
truthy payload without a truthy `entities` field fails with the SchemaError
(`"No entities property in sceneData"`); in both cases the returned world
state is the input world unchanged — the payload is not stored in
`originalSceneData` and no entity is created (entity creation happens only
inside the scene-code continuation, which is never reached). -/
theorem loadSceneData_fails_before_mutation (w : World) (d : JsVal)
    (f : World → JsVal → World) :
    (truthy d = false →
      w.loadSceneData d f = (some (.formatError "Data is not in JSON Format"), w)) ∧
    (truthy d = true → truthyOpt (jsGet d "entities") = false →
      w.loadSceneData d f = (some (.schemaError "No entities property in sceneData"), w)) := by
  constructor
  · intro h
    simp [World.loadSceneData, h]
  · intro h1 h2
    simp [World.loadSceneData, h1, h2]

def c4World : World := { entities := [], originalSceneData := none, isPaused := false }

/-- C4 witness: a `null` body triggers the FormatError and a body
`{ foo: 1 }` (no `entities` key) triggers the SchemaError, both leaving the
world untouched. -/
theorem loadSceneData_fails_before_mutation_witness :
    truthy JsVal.null = false ∧
    c4World.loadSceneData .null (fun w2 _ => w2) =
      (some (.formatError "Data is not in JSON Format"), c4World) ∧
    truthy (JsVal.obj [("foo", .num 1)]) = true ∧
    truthyOpt (jsGet (JsVal.obj [("foo", .num 1)]) "entities") = false ∧
    c4World.loadSceneData (.obj [("foo", .num 1)]) (fun w2 _ => w2) =
      (some (.schemaError "No entities property in sceneData"), c4World) :=
  ⟨rfl, (loadSceneData_fails_before_mutation c4World .null (fun w2 _ => w2)).1 rfl,
   rfl, rfl,
   (loadSceneData_fails_before_mutation c4World (.obj [("foo", .num 1)])
     (fun w2 _ => w2)).2 rfl rfl⟩

/-! Claim C5: `Entity.addComponent` postconditions. -/

/-- C5: after `E.addComponent(c)` with `c` of kind K, the entity has the
kind, `getComponent(K)` returns the very component that was passed in (now
carrying its back-reference, set by `addComponent` itself), that
back-reference names E, and the returned value is E itself — the same
entity (same name), with every other kind's slot untouched. -/
theorem addComponent_stores_and_backrefs (e : Entity) (c : Component) :
    (e.addComponent c).hasComponent c.kind = true ∧
    (e.addComponent c).getComponent c.kind =
      .ok { c with props := mapSet c.props "entity" (.entityRef e.name) } ∧
    mapGet (mapSet c.props "entity" (.entityRef e.name)) "entity" =
      some (.entityRef e.name) ∧
    (e.addComponent c).name = e.name ∧
    (∀ k : String, k ≠ c.kind →
      mapGet (e.addComponent c).components k = mapGet e.components k) := by
  refine ⟨?_, ?_, mapGet_mapSet_self c.props "entity" _, rfl, ?_⟩
  · unfold Entity.addComponent Entity.hasComponent
    simp [mapGet_mapSet_self]
  · unfold Entity.addComponent Entity.getComponent
    simp [mapGet_mapSet_self]
  · intro k hk
    unfold Entity.addComponent
    exact mapGet_mapSet_ne e.components c.kind k _ hk

def c5Comp : Component := Component.init "Test" [("hp", .num 7)]

def c5Entity : Entity := Entity.make "Hero"

/-- C5 witness: adding a freshly constructed component to a fresh entity,
with the untouched-other-kind conclusion instantiated at kind `Other`. -/
theorem addComponent_stores_and_backrefs_witness :
    (c5Entity.addComponent c5Comp).hasComponent "Test" = true ∧
    (c5Entity.addComponent c5Comp).getComponent "Test" =
      .ok { c5Comp with props := mapSet c5Comp.props "entity" (.entityRef "Hero") } ∧
    (c5Entity.addComponent c5Comp).name = "Hero" ∧
    mapGet (c5Entity.addComponent c5Comp).components "Other" =
      mapGet c5Entity.components "Other" :=
  ⟨(addComponent_stores_and_backrefs c5Entity c5Comp).1,
   (addComponent_stores_and_backrefs c5Entity c5Comp).2.1,
   (addComponent_stores_and_backrefs c5Entity c5Comp).2.2.2.1,
   (addComponent_stores_and_backrefs c5Entity c5Comp).2.2.2.2 "Other" (by decide)⟩

/-! Claim C6: at most one component per kind; same-kind insertion replaces. -/

/-- C6: the at-most-one-component-per-kind invariant (no duplicate kind
keys in the component map) is preserved by `addComponent` and
`removeComponent` (the only operations that modify the map), and inserting
a second component of an already-stored kind K replaces the first:
`getComponent(K)` afterwards returns the second instance (with its
back-reference set) and the number of stored components is unchanged. -/
theorem one_component_per_kind_replacement (e : Entity) (c c1 c2 : Component)
    (K : String) :
    (e.kindKeys.Nodup → ((e.addComponent c).kindKeys).Nodup) ∧
    (e.kindKeys.Nodup → ((e.removeComponent c).kindKeys).Nodup) ∧
    (mapGet e.components K = some c1 → c2.kind = K →
      (e.addComponent c2).getComponent K =
        .ok { c2 with props := mapSet c2.props "entity" (.entityRef e.name) } ∧
      (e.addComponent c2).components.length = e.components.length) := by
  refine ⟨?_, ?_, ?_⟩
  · intro hnd
    unfold Entity.addComponent Entity.kindKeys
    by_cases hany : e.components.any (fun p => p.1 == c.kind) = true
    · rw [keys_mapSet_of_present _ _ _ hany]
      exact hnd
    · rw [keys_mapSet_of_absent _ _ _ (Bool.eq_false_iff.mpr hany)]
      rw [List.nodup_append]
      refine ⟨hnd, List.nodup_singleton _, ?_⟩
      rw [List.disjoint_singleton]
      intro hmem
      obtain ⟨p, hp, hpk⟩ := List.mem_map.mp hmem
      exact hany (List.any_eq_true.mpr ⟨p, hp, by simp [hpk]⟩)
  · intro hnd
    have hsub : ((mapDelete e.components c.kind).map (fun p => p.1)).Sublist
        (e.components.map (fun p => p.1)) :=
      List.Sublist.map (fun p => p.1) (List.filter_sublist e.components)
    exact List.Nodup.sublist hsub hnd
  · intro h1 h2
    constructor
    · unfold Entity.addComponent Entity.getComponent
      simp only [h2]
      simp [mapGet_mapSet_self]
    · unfold Entity.addComponent
      simp only [h2, List.length_map]
      exact mapSet_length_of_present _ _ _
        (by rw [← mapGet_isSome_iff_any, h1]; rfl)

def c6First : Component := Component.init "Test" [("hp", .num 1)]

def c6Second : Component := Component.init "Test" [("hp", .num 2)]

def c6Entity : Entity := (Entity.make "Hero").addComponent c6First

/-- C6 witness: on an entity already storing a `Test` component, adding a
second `Test` instance keeps the kind keys duplicate-free, leaves the
count at 1, and `getComponent` returns the second instance. -/
theorem one_component_per_kind_replacement_witness :
    c6Entity.kindKeys.Nodup ∧
    ((c6Entity.addComponent c6Second).kindKeys).Nodup ∧
    (c6Entity.addComponent c6Second).getComponent "Test" =
      .ok { c6Second with props := mapSet c6Second.props "entity" (.entityRef "Hero") } ∧
    (c6Entity.addComponent c6Second).components.length = c6Entity.components.length :=
  ⟨by decide,
   (one_component_per_kind_replacement c6Entity c6Second
     { c6First with props := mapSet c6First.props "entity" (.entityRef "Hero") }
     c6Second "Test").1 (by decide),
   ((one_component_per_kind_replacement c6Entity c6Second
     { c6First with props := mapSet c6First.props "entity" (.entityRef "Hero") }
     c6Second "Test").2.2 rfl rfl).1,
   ((one_component_per_kind_replacement c6Entity c6Second
     { c6First with props := mapSet c6First.props "entity" (.entityRef "Hero") }
     c6Second "Test").2.2 rfl rfl).2⟩

/-! Claim C9: `Entity.removeComponent` on an absent kind. -/

/-- C9: removing a component whose kind is not stored on the entity does
not raise, returns the entity, and leaves it entirely unchanged (same
stored components, same count). -/
theorem removeComponent_absent_is_noop (e : Entity) (c : Component)
    (h : e.hasComponent c.kind = false) :
    e.removeComponent c = e := by
  have hnone : mapGet e.components c.kind = none := by
    unfold Entity.hasComponent at h
    exact Option.not_isSome_iff_eq_none.mp (by simp [h])
  unfold Entity.removeComponent
  rw [mapDelete_of_absent _ _ hnone]

def c9Entity : Entity := (Entity.make "Hero").addComponent (Component.init "Test" [])

def c9Absent : Component := Component.init "Ghost" []

/-- C9 witness: removing a never-attached `Ghost` component from an entity
holding only `Test` returns the entity unchanged. -/
theorem removeComponent_absent_is_noop_witness :
    c9Entity.hasComponent "Ghost" = false ∧
    c9Entity.removeComponent c9Absent = c9Entity :=
  ⟨rfl, removeComponent_absent_is_noop c9Entity c9Absent rfl⟩

/-! Claim C10: `Entity.removeComponent` deletes by runtime kind, not
instance identity. -/

/-- C10: with a component of kind K stored on the entity, removing ANY
instance whose runtime kind is K — including one that is distinct from the
stored instance and was never attached — deletes the stored component,
while removing an instance of any other kind leaves the stored component in
place. -/
theorem removeComponent_deletes_by_runtime_kind (e : Entity) (c1 c2 : Component)
    (K : String) (hstore : mapGet e.components K = some c1) :
    (c2.kind = K → (e.removeComponent c2).hasComponent K = false) ∧
    (c2.kind ≠ K → (e.removeComponent c2).getComponent K = .ok c1) := by
  constructor
  · intro hk
    unfold Entity.removeComponent Entity.hasComponent
    simp [hk, mapGet_mapDelete_self]
  · intro hk
    unfold Entity.removeComponent Entity.getComponent
    rw [mapGet_mapDelete_ne e.components c2.kind K (Ne.symm hk), hstore]

def c10Stored : Component :=
  { kind := "Test",
    props := [("loading", .bool false), ("loaded", .bool false),
              ("enabled", .bool true), ("entity", .entityRef "Hero")] }

def c10Entity : Entity := (Entity.make "Hero").addComponent (Component.init "Test" [])

/-- A second `Test` instance, never attached to any entity and with
different field values than the stored one. -/
def c10Stranger : Component := Component.init "Test" [("hp", .num 99)]

def c10OtherKind : Component := Component.init "Other" []

/-- C10 witness: removing the never-attached same-kind instance deletes the
stored component; removing an other-kind instance leaves it stored. -/
theorem removeComponent_deletes_by_runtime_kind_witness :
    mapGet c10Entity.components "Test" = some c10Stored ∧
    (c10Entity.removeComponent c10Stranger).hasComponent "Test" = false ∧
    (c10Entity.removeComponent c10OtherKind).getComponent "Test" = .ok c10Stored :=
  ⟨rfl,
   (removeComponent_deletes_by_runtime_kind c10Entity c10Stored c10Stranger "Test"
     rfl).1 rfl,
   (removeComponent_deletes_by_runtime_kind c10Entity c10Stored c10OtherKind "Test"
     rfl).2 (by decide)⟩

/-! Claim C7: component serialization and the owning-entity
back-reference. -/

/-- The stored component after
`(new Entity("E")).addComponent(new TestComponent({}))`: the constructed
base state with the back-reference set to the entity `E`. -/
def c7Stored : Component :=
  { kind := "TestComponent",
    props := [("loading", .bool false), ("loaded", .bool false),
              ("enabled", .bool true), ("entity", .entityRef "E")] }

/-- C7 counterexample: the claim says the serialized snapshot excludes the
owning-entity back-reference, i.e. its `entity` key would be absent. On the
concrete stored component, both `Component.toJSON` (the snapshot under the
kind identifier) and `Component.serialize` carry the `entity` own property,
with the back-reference to `E`, so the exclusion claim is false. (The
repository's own test suite asserts this inclusion: "the entity should be
serialized as well". Exclusion happens only in `Entity.toJSON`, which
deletes the `entity` key from each snapshot.) -/
theorem serialization_excludes_backref_counterexample :
    mapGet ((Entity.make "E").addComponent
      (Component.init "TestComponent" [])).components "TestComponent" = some c7Stored ∧
    jsGet (Component.toJSON c7Stored) "TestComponent" = some (.obj c7Stored.props) ∧
    mapGet c7Stored.props "entity" = some (.entityRef "E") ∧
    ¬ mapGet c7Stored.props "entity" = none ∧
    Component.serialize c7Stored = .obj c7Stored.props :=
  ⟨rfl, rfl, rfl, fun h => Option.noConfusion h, rfl⟩

/-- C7 amended: for every component (any subclass state), serialization
produces a mapping from the subtype's kind identifier to a shallow snapshot
of the component's own fields that INCLUDES the owning-entity
back-reference: once the component is attached to an entity E, the stored
instance's snapshot carries `entity = E`. -/
theorem serialization_maps_kind_to_own_fields (e : Entity) (c : Component) :
    jsGet (Component.toJSON c) c.kind = some (.obj c.props) ∧
    Component.serialize c = .obj c.props ∧
    (∀ cs : Component,
      mapGet (e.addComponent c).components c.kind = some cs →
      jsGet (Component.toJSON cs) cs.kind = some (.obj cs.props) ∧
      mapGet cs.props "entity" = some (.entityRef e.name)) := by
  refine ⟨?_, rfl, ?_⟩
  · simp [Component.toJSON, jsGet, mapGet_cons]
  · intro cs hcs
    have hstored : mapGet (e.addComponent c).components c.kind =
        some { c with props := mapSet c.props "entity" (.entityRef e.name) } := by
      unfold Entity.addComponent
      simp [mapGet_mapSet_self]
    rw [hstored] at hcs
    obtain rfl : cs = { c with props := mapSet c.props "entity" (.entityRef e.name) } :=
      (Option.some.injEq _ _).mp hcs.symm
    constructor
    · simp [Component.toJSON, jsGet, mapGet_cons]
    · exact mapGet_mapSet_self c.props "entity" _

def c7wEntity : Entity := Entity.make "E"

def c7wComp : Component := Component.init "TestComponent" []

/-- C7 amended witness: the stored instance on the concrete fixture has its
snapshot keyed by the kind identifier and carrying the back-reference. -/
theorem serialization_maps_kind_to_own_fields_witness :
    jsGet (Component.toJSON c7wComp) "TestComponent" = some (.obj c7wComp.props) ∧
    jsGet (Component.toJSON c7Stored) "TestComponent" = some (.obj c7Stored.props) ∧
    mapGet c7Stored.props "entity" = some (.entityRef "E") :=
  ⟨(serialization_maps_kind_to_own_fields c7wEntity c7wComp).1,
   ((serialization_maps_kind_to_own_fields c7wEntity c7wComp).2.2 c7Stored rfl).1,
   ((serialization_maps_kind_to_own_fields c7wEntity c7wComp).2.2 c7Stored rfl).2⟩

/-! Claim C8: the `Component` constructor and the lifecycle flags. -/

/-- C8 counterexample: the claim says `loading` and `loaded` stay at their
default `false` regardless of the contents of the input record. In the
`src/lib/ECS/Component.ts` constructor, `Object.assign(this, data)` copies
every key of the record onto the component before `enabled` is fixed up, so
constructing with `{ loading: true }` yields a component whose `loading`
flag is `true`, not the default `false`. -/
theorem component_init_lifecycle_counterexample :
    mapGet (Component.init "TestComponent" [("loading", .bool true)]).props "loading"
      = some (.bool true) ∧
    ¬ mapGet (Component.init "TestComponent" [("loading", .bool true)]).props "loading"
      = some (.bool false) :=
  ⟨rfl, fun h => by
    have h2 : (JsVal.bool true) = (JsVal.bool false) := Option.some.injEq _ _ ▸ h
    have h3 : true = false := by injection h2
    exact Bool.noConfusion h3⟩

/-- C8 amended: constructing a `Component` with an input record `d` sets
`enabled` to `d.enabled` when that key is present and to `true` otherwise
(both constructor variants); the lifecycle flags `loading` and `loaded`
stay at their default `false` unconditionally in the variant base class
(which assigns only `enabled` from the record), and in the
`src/lib/ECS/Component.ts` variant only provided `d` itself contains
neither a `loading` nor a `loaded` key, since its `Object.assign(this, d)`
copies every key of `d` onto the component. -/
theorem component_init_lifecycle_flags (kind : String) (data : List (String × JsVal)) :
    (mapGet (Component.initAlt kind data).props "loading" = some (.bool false) ∧
     mapGet (Component.initAlt kind data).props "loaded" = some (.bool false) ∧
     mapGet (Component.initAlt kind data).props "enabled"
       = some ((mapGet data "enabled").getD (.bool true))) ∧
    (mapGet (Component.init kind data).props "enabled"
       = some ((mapGet data "enabled").getD (.bool true))) ∧
    (mapGet data "loading" = none →
      mapGet (Component.init kind data).props "loading" = some (.bool false)) ∧
    (mapGet data "loaded" = none →
      mapGet (Component.init kind data).props "loaded" = some (.bool false)) := by
  refine ⟨⟨rfl, rfl, rfl⟩, ?_, ?_, ?_⟩
  · exact mapGet_mapSet_self _ "enabled" _
  · intro h
    unfold Component.init
    rw [mapGet_mapSet_ne _ "enabled" "loading" _ (by decide)]
    rw [mapGet_foldl_mapSet_of_absent data "loading" (mapGet_eq_none_forall data "loading" h)]
    rfl
  · intro h
    unfold Component.init
    rw [mapGet_mapSet_ne _ "enabled" "loaded" _ (by decide)]
    rw [mapGet_foldl_mapSet_of_absent data "loaded" (mapGet_eq_none_forall data "loaded" h)]
    rfl

def c8Data : List (String × JsVal) := [("enabled", .bool false), ("hp", .num 3)]

/-- C8 amended witness: a record carrying `enabled: false` and a custom
field but no lifecycle keys yields `enabled = false` and default lifecycle
flags under both constructor variants. -/
theorem component_init_lifecycle_flags_witness :
    mapGet c8Data "loading" = none ∧
    mapGet c8Data "loaded" = none ∧
    mapGet (Component.initAlt "Test" c8Data).props "enabled" = some (.bool false) ∧
    mapGet (Component.init "Test" c8Data).props "enabled" = some (.bool false) ∧
    mapGet (Component.init "Test" c8Data).props "loading" = some (.bool false) ∧
    mapGet (Component.init "Test" c8Data).props "loaded" = some (.bool false) :=
  ⟨rfl, rfl,
   (component_init_lifecycle_flags "Test" c8Data).1.2.2,
   (component_init_lifecycle_flags "Test" c8Data).2.1,
   (component_init_lifecycle_flags "Test" c8Data).2.2.1 rfl,
   (component_init_lifecycle_flags "Test" c8Data).2.2.2 rfl⟩

end Arcade
